import Mathlib

/-! Kyma mothership reconciler.

A shallow embedding of `operator/controllers/kyma_controller.go`.

* Go values of type `error` are `Option StatusError` (`none` is `nil`); an
  error carries the reason and the HTTP code `apierrors` reads off it, and
  `IsNotFound` answers as `apierrors.IsNotFound` does: reason `NotFound`, or an
  unlisted reason with code 404.
* The two store handles of `KymaReconciler` (`Client`, `DynamicClient`) are
  records of state-passing functions over an arbitrary store state `σ`, so
  every theorem about `Reconcile` quantifies over every store behaviour.
* `ctx` and the logger have no effect on the stores or on the returned values
  and are left out.
* `traced` wraps any reconciler so that each store call is appended to a log;
  statements about what is submitted to a store are statements about that log.
* `Cluster` is an in-memory store used for the claims about store contents.
-/

namespace KymaOperator

/-! ## Kubernetes API machinery used by the controller -/

/-- The Go type `metav1.StatusReason` is a string. -/
abbrev StatusReason := String

/-- Constant `metav1.StatusReasonUnknown`. -/
def StatusReasonUnknown : StatusReason := ""

/-- Constant `metav1.StatusReasonNotFound`. -/
def StatusReasonNotFound : StatusReason := "NotFound"

/-- Constant `metav1.StatusReasonAlreadyExists`. -/
def StatusReasonAlreadyExists : StatusReason := "AlreadyExists"

/-- The reasons `apierrors` lists in its `knownReasons` table. -/
def knownReasons : List StatusReason :=
  ["Unauthorized", "Forbidden", "NotFound", "AlreadyExists", "Conflict", "Gone", "Invalid",
   "ServerTimeout", "Timeout", "TooManyRequests", "BadRequest", "MethodNotAllowed",
   "NotAcceptable", "RequestEntityTooLarge", "UnsupportedMediaType", "InternalError",
   "Expired", "ServiceUnavailable"]

/-- Constant `http.StatusNotFound`. -/
def StatusNotFound : Int := 404

/-- Constant `http.StatusConflict`. -/
def StatusConflict : Int := 409

/-- Constant `http.StatusGatewayTimeout`. -/
def StatusGatewayTimeout : Int := 504

/-- A non-nil Go error as seen by `apierrors`: the reason and the HTTP code
that `reasonAndCodeForError` reads off it (`StatusReasonUnknown` and `0` for an
error that is not an API status) and its message. -/
structure StatusError where
  Reason : StatusReason
  Code : Int
  Message : String
deriving DecidableEq, Repr

/-- The Go interface type `error`; `none` is `nil`. -/
abbrev error := Option StatusError

/-- Function `apierrors.reasonAndCodeForError`: reason and code of an API
status error, `StatusReasonUnknown` and `0` for `nil`. -/
def reasonAndCodeForError (err : error) : StatusReason × Int :=
  match err with
  | some status => (status.Reason, status.Code)
  | none => (StatusReasonUnknown, 0)

/-- Function `apierrors.IsNotFound`: the reason is `NotFound`, or the reason is
not a known one and the code is 404. -/
def IsNotFound (err : error) : Bool :=
  let reason := (reasonAndCodeForError err).1
  let code := (reasonAndCodeForError err).2
  if reason = StatusReasonNotFound then
    true
  else if ¬ (reason ∈ knownReasons) ∧ code = StatusNotFound then
    true
  else
    false

/-- The Go type `types.NamespacedName`. -/
structure NamespacedName where
  Namespace : String := ""
  Name : String := ""
deriving DecidableEq, Repr

/-- The Go type `client.ObjectKey` is `types.NamespacedName`. -/
abbrev ObjectKey := NamespacedName

/-- The Go type `ctrl.Request`. -/
structure Request where
  NamespacedName : NamespacedName := {}
deriving DecidableEq, Repr

/-- Promoted field `req.Name`. -/
def Request.Name (req : Request) : String := req.NamespacedName.Name

/-- Promoted field `req.Namespace`. -/
def Request.Namespace (req : Request) : String := req.NamespacedName.Namespace

/-- The Go type `ctrl.Result`; `RequeueAfter` is a `time.Duration`. -/
structure Result where
  Requeue : Bool := false
  RequeueAfter : Int := 0
deriving DecidableEq, Repr

/-- The part of `metav1.ObjectMeta` the controller touches. -/
structure ObjectMeta where
  Name : String := ""
  Namespace : String := ""
deriving DecidableEq, Repr

/-- The Go type `inventoryv1alpha1.KymaSpec`. -/
structure KymaSpec where
  Foo : String := ""
deriving DecidableEq, Repr

/-- The Go type `inventoryv1alpha1.Kyma`, the primary resource. -/
structure Kyma where
  ObjectMeta : ObjectMeta := {}
  Spec : KymaSpec := {}
deriving DecidableEq, Repr

/-- Method `GetName` of the embedded `ObjectMeta`. -/
def Kyma.GetName (obj : Kyma) : String := obj.ObjectMeta.Name

/-- Method `GetNamespace` of the embedded `ObjectMeta`. -/
def Kyma.GetNamespace (obj : Kyma) : String := obj.ObjectMeta.Namespace

/-- The Go type `istioOperatorApi.IstioConfigurationSpec`. -/
structure IstioConfigurationSpec where
  Foo : String := ""
deriving DecidableEq, Repr

/-- The Go type `istioOperatorApi.IstioConfiguration`. -/
structure IstioConfiguration where
  ObjectMeta : ObjectMeta := {}
  Spec : IstioConfigurationSpec := {}
deriving DecidableEq, Repr

/-- The Go type `schema.GroupVersionResource`. -/
structure GroupVersionResource where
  Group : String := ""
  Version : String := ""
  Resource : String := ""
deriving DecidableEq, Repr

/-- The Go type `schema.GroupVersion`. -/
structure GroupVersion where
  Group : String := ""
  Version : String := ""
deriving DecidableEq, Repr

/-- The Go type `schema.GroupVersionKind`. -/
structure GroupVersionKind where
  Group : String := ""
  Version : String := ""
  Kind : String := ""
deriving DecidableEq, Repr

/-- Method `GroupVersionKind.GroupVersion`. -/
def GroupVersionKind.GroupVersion (gvk : GroupVersionKind) : GroupVersion :=
  { Group := gvk.Group, Version := gvk.Version }

/-- Method `GroupVersion.String`: the version alone when the group is empty,
else `group/version`. -/
def GroupVersion.String (gv : GroupVersion) : String :=
  if gv.Group.length > 0 then gv.Group ++ "/" ++ gv.Version else gv.Version

/-- The Go type `metav1.CreateOptions`; the controller passes the zero value. -/
structure CreateOptions where
  DryRun : List String := []
  FieldManager : String := ""
deriving DecidableEq, Repr

/-! ## Unstructured objects -/

/-- The values of `interface{}` that occur in the object the controller
builds: strings and nested `map[string]interface{}`. A Go map is an
association list with at most one entry per key. -/
inductive Value where
  | str : String → Value
  | map : List (String × Value) → Value

/-- The Go type `map[string]interface{}`. -/
abbrev Fields := List (String × Value)

/-- Map read `m[key]` with the `ok` flag as `Option`. -/
def Fields.get (m : Fields) (key : String) : Option Value :=
  match m with
  | [] => none
  | (k, v) :: rest => if k = key then some v else Fields.get rest key

/-- Map write `m[key] = value`: replace the entry of `key`, or add one. -/
def Fields.set (m : Fields) (key : String) (value : Value) : Fields :=
  match m with
  | [] => [(key, value)]
  | (k, v) :: rest =>
    if k = key then (key, value) :: rest else (k, v) :: Fields.set rest key value

/-- Builtin `delete(m, key)`. -/
def Fields.delete (m : Fields) (key : String) : Fields :=
  match m with
  | [] => []
  | (k, v) :: rest =>
    if k = key then Fields.delete rest key else (k, v) :: Fields.delete rest key

/-- Function `unstructured.NestedFieldNoCopy`: walk `fields` down from `val`;
`none` stands for both "not found" and "not a map on the way". -/
def NestedFieldNoCopy : Value → List String → Option Value
  | val, [] => some val
  | Value.map m, field :: fields =>
    match Fields.get m field with
    | some v => NestedFieldNoCopy v fields
    | none => none
  | Value.str _, _ :: _ => none

/-- Function `unstructured.NestedString` followed by the `getNestedString`
wrapper: the string at `fields`, or the empty string when it is missing or is
not a string. -/
def getNestedString (obj : Fields) (fields : List String) : String :=
  match NestedFieldNoCopy (Value.map obj) fields with
  | some (Value.str s) => s
  | _ => ""

/-- Function `unstructured.SetNestedField` (`setNestedFieldNoCopy`): create the
intermediate maps that are missing and write `value` at the last field. When
an intermediate value exists and is not a map the Go code returns an error and
has changed nothing. -/
def SetNestedField (obj : Fields) (value : Value) : List String → Fields
  | [] => obj
  | [last] => Fields.set obj last value
  | field :: rest =>
    match Fields.get obj field with
    | some (Value.map valMap) =>
      Fields.set obj field (Value.map (SetNestedField valMap value rest))
    | some (Value.str _) => obj
    | none => Fields.set obj field (Value.map (SetNestedField [] value rest))

/-- Function `unstructured.RemoveNestedField`. -/
def RemoveNestedField (obj : Fields) : List String → Fields
  | [] => obj
  | [last] => Fields.delete obj last
  | field :: rest =>
    match Fields.get obj field with
    | some (Value.map x) => Fields.set obj field (Value.map (RemoveNestedField x rest))
    | _ => obj

/-- The Go type `unstructured.Unstructured`. -/
structure Unstructured where
  Object : Fields := []

/-- Method `Unstructured.SetAPIVersion`. -/
def Unstructured.SetAPIVersion (u : Unstructured) (version : String) : Unstructured :=
  { Object := SetNestedField u.Object (Value.str version) ["apiVersion"] }

/-- Method `Unstructured.SetKind`. -/
def Unstructured.SetKind (u : Unstructured) (kind : String) : Unstructured :=
  { Object := SetNestedField u.Object (Value.str kind) ["kind"] }

/-- Method `Unstructured.SetGroupVersionKind`. -/
def Unstructured.SetGroupVersionKind (u : Unstructured) (gvk : GroupVersionKind) :
    Unstructured :=
  (u.SetAPIVersion gvk.GroupVersion.String).SetKind gvk.Kind

/-- Method `Unstructured.SetName`: an empty name removes the field. -/
def Unstructured.SetName (u : Unstructured) (name : String) : Unstructured :=
  if name.length = 0 then
    { Object := RemoveNestedField u.Object ["metadata", "name"] }
  else
    { Object := SetNestedField u.Object (Value.str name) ["metadata", "name"] }

/-- Method `Unstructured.SetNamespace`: an empty namespace removes the field. -/
def Unstructured.SetNamespace (u : Unstructured) (ns : String) : Unstructured :=
  if ns.length = 0 then
    { Object := RemoveNestedField u.Object ["metadata", "namespace"] }
  else
    { Object := SetNestedField u.Object (Value.str ns) ["metadata", "namespace"] }

/-- Method `Unstructured.GetName`. -/
def Unstructured.GetName (u : Unstructured) : String :=
  getNestedString u.Object ["metadata", "name"]

/-- Method `Unstructured.GetNamespace`. -/
def Unstructured.GetNamespace (u : Unstructured) : String :=
  getNestedString u.Object ["metadata", "namespace"]

/-! ## The store handles of the reconciler -/

/-- The methods of `client.Client` the controller calls, over a store state
`σ`. `Get` fills the object passed by pointer and returns the error; `Delete`
and `Create` return the error. Of the object passed to `Create` only name,
namespace and spec are modelled, and a store leaves those as submitted. -/
structure Client (σ : Type) where
  Get : NamespacedName → Kyma → σ → (Kyma × error) × σ
  Delete : IstioConfiguration → σ → error × σ
  Create : IstioConfiguration → σ → error × σ

/-- The Go interface `dynamic.ResourceInterface`, method `Create`: the created
object (when there is one) and the error. The object passed in is read, not
written. -/
structure ResourceInterface (σ : Type) where
  Create : Unstructured → CreateOptions → σ → (Option Unstructured × error) × σ

/-- The Go interface `dynamic.NamespaceableResourceInterface`. -/
structure NamespaceableResourceInterface (σ : Type) where
  Namespace : String → ResourceInterface σ

/-- The Go interface `dynamic.Interface`. -/
structure DynamicInterface (σ : Type) where
  Resource : GroupVersionResource → NamespaceableResourceInterface σ

/-- The Go type `KymaReconciler` (the `Scheme` field is never read). -/
structure KymaReconciler (σ : Type) where
  Client : Client σ
  DynamicClient : DynamicInterface σ

/-! ## The controller -/

/-- Method `KymaReconciler.CreateIstioCR` (lines 119-131). -/
def KymaReconciler.CreateIstioCR {σ : Type} (r : KymaReconciler σ) (obj : Kyma) (s : σ) :
    (ObjectKey × error) × σ :=
  let importantValue := obj.Spec.Foo
  let istioObject : IstioConfiguration := {}
  let istioObject : IstioConfiguration :=
    { istioObject with ObjectMeta := { istioObject.ObjectMeta with Name := obj.ObjectMeta.Name } }
  let istioObject : IstioConfiguration :=
    { istioObject with
      ObjectMeta := { istioObject.ObjectMeta with Namespace := obj.ObjectMeta.Namespace } }
  let istioObject : IstioConfiguration := { istioObject with Spec := {} }
  let istioObject : IstioConfiguration :=
    { istioObject with Spec := { Foo := importantValue ++ "_from_mothership" } }
  let created := r.Client.Create istioObject s
  (({ Name := istioObject.ObjectMeta.Name, Namespace := istioObject.ObjectMeta.Namespace },
    created.1), created.2)

/-- Method `KymaReconciler.CreateServerlessCR` (lines 133-168). -/
def KymaReconciler.CreateServerlessCR {σ : Type} (r : KymaReconciler σ) (obj : Kyma) (s : σ) :
    (ObjectKey × error) × σ :=
  let serverlessConfigurationResource : GroupVersionResource :=
    { Group := "kyma.kyma-project.io", Version := "v1alpha1",
      Resource := "serverlessconfigurations" }
  let serverlessClient :=
    (r.DynamicClient.Resource serverlessConfigurationResource).Namespace obj.ObjectMeta.Namespace
  let commonPrefix := obj.Spec.Foo
  let githubRepositoryAuthKey := "a1b2c3d4e5"
  let githubRepositoryUrl := "https://kyma-project.io/serverless/dummy"
  let target : Unstructured :=
    { Object :=
        [("spec", Value.map
            [("commonPrefix", Value.str commonPrefix),
             ("githubRepository", Value.map
                [("authKey", Value.str githubRepositoryAuthKey),
                 ("url", Value.str githubRepositoryUrl)])])] }
  let groupVersionKind : GroupVersionKind :=
    { Group := "kyma.kyma-project.io", Version := "v1alpha1",
      Kind := "ServerlessConfiguration" }
  let target := target.SetGroupVersionKind groupVersionKind
  let target := target.SetName (obj.GetName ++ "-serverless")
  let target := target.SetNamespace obj.GetNamespace
  let created := serverlessClient.Create target {} s
  (({ Name := target.GetName, Namespace := target.GetNamespace }, created.1.2), created.2)

/-- Method `KymaReconciler.Reconcile` (lines 55-110). The call to
`CreateIstioCR` is commented out in the source and is not made here. -/
def KymaReconciler.Reconcile {σ : Type} (r : KymaReconciler σ) (req : Request) (s : σ) :
    (Result × error) × σ :=
  let obj : Kyma := {}
  let got := r.Client.Get req.NamespacedName obj s
  let obj := got.1.1
  let err := got.1.2
  let s := got.2
  if IsNotFound err then
    -- object is deleted: try to delete the related IstioConfiguration object
    let istioObject : IstioConfiguration := {}
    let istioObject : IstioConfiguration :=
      { istioObject with ObjectMeta := { istioObject.ObjectMeta with Name := req.Name } }
    let istioObject : IstioConfiguration :=
      { istioObject with ObjectMeta := { istioObject.ObjectMeta with Namespace := req.Namespace } }
    let deleted := r.Client.Delete istioObject s
    let err := deleted.1
    let s := deleted.2
    if IsNotFound err then
      -- IstioConfiguration does not exist. Success.
      (({}, none), s)
    else if err ≠ none then
      (({}, err), s)
    else
      (({}, none), s)
  else if err ≠ none then
    (({}, err), s)
  else
    -- 2) create the CR for the Serverless component operator
    let created := r.CreateServerlessCR obj s
    let err := created.1.2
    let s := created.2
    if err ≠ none then
      (({}, err), s)
    else
      (({}, none), s)

/-! ## Recording the store calls -/

/-- One call on a store handle, with the arguments it was given. -/
inductive Call where
  | Get : NamespacedName → Call
  | Delete : IstioConfiguration → Call
  | Create : IstioConfiguration → Call
  | DynamicCreate : GroupVersionResource → String → Unstructured → CreateOptions → Call

/-- The same reconciler with every store call appended to a log kept next to
the store state. -/
def KymaReconciler.traced {σ : Type} (r : KymaReconciler σ) : KymaReconciler (σ × List Call) where
  Client :=
    { Get := fun key obj st =>
        ((r.Client.Get key obj st.1).1, ((r.Client.Get key obj st.1).2, st.2 ++ [Call.Get key]))
      Delete := fun obj st =>
        ((r.Client.Delete obj st.1).1, ((r.Client.Delete obj st.1).2, st.2 ++ [Call.Delete obj]))
      Create := fun obj st =>
        ((r.Client.Create obj st.1).1, ((r.Client.Create obj st.1).2, st.2 ++ [Call.Create obj])) }
  DynamicClient :=
    { Resource := fun gvr =>
        { Namespace := fun ns =>
            { Create := fun obj opts st =>
                ((((r.DynamicClient.Resource gvr).Namespace ns).Create obj opts st.1).1,
                 ((((r.DynamicClient.Resource gvr).Namespace ns).Create obj opts st.1).2,
                  st.2 ++ [Call.DynamicCreate gvr ns obj opts])) } } }

/-! ## An in-memory store -/

/-- Modelled from the spec: the Typed Store and the Dynamic Store are external
collaborators (section 6), get-by-identity answering resource or not-found,
create answering ok or already-exists, delete answering ok or not-found. The
contents of both stores: the primary resources, the IstioConfiguration objects,
and the schema-less objects with the resource and namespace they were created
under. -/
structure Cluster where
  kymas : List Kyma := []
  istioConfigurations : List IstioConfiguration := []
  dynamicObjects : List (GroupVersionResource × String × Unstructured) := []

/-- Whether the metadata carries the identity `key`. -/
def ObjectMeta.hasKey (m : ObjectMeta) (key : NamespacedName) : Bool :=
  decide (m.Namespace = key.Namespace) && decide (m.Name = key.Name)

/-- Whether a stored schema-less object is the one addressed by resource,
namespace and name. -/
def dynamicHasKey (gvr : GroupVersionResource) (ns : String) (name : String)
    (entry : GroupVersionResource × String × Unstructured) : Bool :=
  decide (entry.1 = gvr) && decide (entry.2.1 = ns) && decide (entry.2.2.GetName = name)

/-- Error built by `apierrors.NewNotFound`. -/
def NewNotFound (name : String) : StatusError :=
  { Reason := StatusReasonNotFound, Code := StatusNotFound, Message := name ++ " not found" }

/-- Error built by `apierrors.NewAlreadyExists`. -/
def NewAlreadyExists (name : String) : StatusError :=
  { Reason := StatusReasonAlreadyExists, Code := StatusConflict,
    Message := name ++ " already exists" }

/-- Modelled from the spec: Typed Store read of the primary by identity. -/
def Cluster.Get (key : NamespacedName) (obj : Kyma) (c : Cluster) : (Kyma × error) × Cluster :=
  match c.kymas.find? (fun k => k.ObjectMeta.hasKey key) with
  | some found => ((found, none), c)
  | none => ((obj, some (NewNotFound key.Name)), c)

/-- Modelled from the spec: Typed Store delete of an IstioConfiguration by the
identity of the object passed. -/
def Cluster.Delete (obj : IstioConfiguration) (c : Cluster) : error × Cluster :=
  let key : NamespacedName := { Namespace := obj.ObjectMeta.Namespace, Name := obj.ObjectMeta.Name }
  if c.istioConfigurations.any (fun i => i.ObjectMeta.hasKey key) then
    (none, { c with
      istioConfigurations := c.istioConfigurations.filter (fun i => !i.ObjectMeta.hasKey key) })
  else
    (some (NewNotFound key.Name), c)

/-- Modelled from the spec: Typed Store create of an IstioConfiguration. -/
def Cluster.Create (obj : IstioConfiguration) (c : Cluster) : error × Cluster :=
  let key : NamespacedName := { Namespace := obj.ObjectMeta.Namespace, Name := obj.ObjectMeta.Name }
  if c.istioConfigurations.any (fun i => i.ObjectMeta.hasKey key) then
    (some (NewAlreadyExists key.Name), c)
  else
    (none, { c with istioConfigurations := c.istioConfigurations ++ [obj] })

/-- Modelled from the spec: Dynamic Store create, addressed by resource,
namespace and the name the object carries. -/
def Cluster.DynamicCreate (gvr : GroupVersionResource) (ns : String) (obj : Unstructured)
    (_opts : CreateOptions) (c : Cluster) : (Option Unstructured × error) × Cluster :=
  if c.dynamicObjects.any (dynamicHasKey gvr ns obj.GetName) then
    ((none, some (NewAlreadyExists obj.GetName)), c)
  else
    ((some obj, none), { c with dynamicObjects := c.dynamicObjects ++ [(gvr, ns, obj)] })

/-- The reconciler wired to the in-memory store. -/
def clusterReconciler : KymaReconciler Cluster where
  Client := { Get := Cluster.Get, Delete := Cluster.Delete, Create := Cluster.Create }
  DynamicClient :=
    { Resource := fun gvr => { Namespace := fun ns => { Create := Cluster.DynamicCreate gvr ns } } }

/-- Errors a test double injects: a call whose entry is not `none` fails with
that error and leaves the store as it is. -/
structure Faults where
  Get : error := none
  Delete : error := none
  Create : error := none
  DynamicCreate : error := none

/-- The reconciler wired to the in-memory store with injected faults. -/
def faultyReconciler (f : Faults) : KymaReconciler Cluster where
  Client :=
    { Get := fun key obj c =>
        match f.Get with
        | some e => ((obj, some e), c)
        | none => Cluster.Get key obj c
      Delete := fun obj c =>
        match f.Delete with
        | some e => (some e, c)
        | none => Cluster.Delete obj c
      Create := fun obj c =>
        match f.Create with
        | some e => (some e, c)
        | none => Cluster.Create obj c }
  DynamicClient :=
    { Resource := fun gvr =>
        { Namespace := fun ns =>
            { Create := fun obj opts c =>
                match f.DynamicCreate with
                | some e => ((none, some e), c)
                | none => Cluster.DynamicCreate gvr ns obj opts c } } }

/-- The resource under which `CreateServerlessCR` creates its object. -/
def serverlessConfigurationResource : GroupVersionResource :=
  { Group := "kyma.kyma-project.io", Version := "v1alpha1",
    Resource := "serverlessconfigurations" }

/-- The object `CreateServerlessCR` has built when it calls `Create`
(lines 137-163), as a function of the primary. -/
def serverlessTarget (obj : Kyma) : Unstructured :=
  let commonPrefix := obj.Spec.Foo
  let githubRepositoryAuthKey := "a1b2c3d4e5"
  let githubRepositoryUrl := "https://kyma-project.io/serverless/dummy"
  let target : Unstructured :=
    { Object :=
        [("spec", Value.map
            [("commonPrefix", Value.str commonPrefix),
             ("githubRepository", Value.map
                [("authKey", Value.str githubRepositoryAuthKey),
                 ("url", Value.str githubRepositoryUrl)])])] }
  let groupVersionKind : GroupVersionKind :=
    { Group := "kyma.kyma-project.io", Version := "v1alpha1",
      Kind := "ServerlessConfiguration" }
  let target := target.SetGroupVersionKind groupVersionKind
  let target := target.SetName (obj.GetName ++ "-serverless")
  target.SetNamespace obj.GetNamespace

/-- The spec block of the built object. -/
def serverlessSpec (obj : Kyma) : String × Value :=
  ("spec", Value.map
    [("commonPrefix", Value.str obj.Spec.Foo),
     ("githubRepository", Value.map
        [("authKey", Value.str "a1b2c3d4e5"),
         ("url", Value.str "https://kyma-project.io/serverless/dummy")])])

/-! ## Sample data -/

/-- A primary `prod/kyma` with spec seed `alpha`. -/
def sampleKyma : Kyma :=
  { ObjectMeta := { Name := "kyma", Namespace := "prod" }, Spec := { Foo := "alpha" } }

/-- The identity `prod/kyma`. -/
def sampleRequest : Request := { NamespacedName := { Namespace := "prod", Name := "kyma" } }

/-- An error that is neither "not found" nor "already exists". -/
def timeoutError : StatusError :=
  { Reason := "Timeout", Code := StatusGatewayTimeout, Message := "request timed out" }

/-- An error with no reason and HTTP code 404, which `IsNotFound` accepts. -/
def bare404Error : StatusError :=
  { Reason := StatusReasonUnknown, Code := StatusNotFound, Message := "404 page not found" }

/-- An error that is not an API status: no reason and no code. -/
def plainError : StatusError :=
  { Reason := StatusReasonUnknown, Code := 0, Message := "connection refused" }

/-- A store that holds the primary `prod/kyma` and nothing else. -/
def clusterWithPrimary : Cluster := { kymas := [sampleKyma] }

/-- A store without the primary `prod/kyma` that holds both of its dependents:
the IstioConfiguration `prod/kyma` and the ServerlessConfiguration
`prod/kyma-serverless`. -/
def clusterWithDependents : Cluster :=
  { istioConfigurations :=
      [{ ObjectMeta := { Name := "kyma", Namespace := "prod" },
         Spec := { Foo := "alpha_from_mothership" } }],
    dynamicObjects := [(serverlessConfigurationResource, "prod", serverlessTarget sampleKyma)] }

/-- The primary with identity `key` is in the store. -/
def Cluster.hasKyma (c : Cluster) (key : NamespacedName) : Bool :=
  c.kymas.any (fun k => k.ObjectMeta.hasKey key)

/-- The IstioConfiguration dependent of identity `key` (same namespace and
name) is in the store. -/
def Cluster.hasIstio (c : Cluster) (key : NamespacedName) : Bool :=
  c.istioConfigurations.any (fun i => i.ObjectMeta.hasKey key)

/-- The ServerlessConfiguration dependent of identity `key` (same namespace,
name followed by `-serverless`) is in the store. -/
def Cluster.hasServerless (c : Cluster) (key : NamespacedName) : Bool :=
  c.dynamicObjects.any
    (dynamicHasKey serverlessConfigurationResource key.Namespace (key.Name ++ "-serverless"))


/-! ## The object built by `CreateServerlessCR` -/

theorem CreateServerlessCR_eq {σ : Type} (r : KymaReconciler σ) (obj : Kyma) (s : σ) :
    r.CreateServerlessCR obj s =
      (({ Name := (serverlessTarget obj).GetName, Namespace := (serverlessTarget obj).GetNamespace },
        (((r.DynamicClient.Resource serverlessConfigurationResource).Namespace
            obj.ObjectMeta.Namespace).Create (serverlessTarget obj) {} s).1.2),
       (((r.DynamicClient.Resource serverlessConfigurationResource).Namespace
            obj.ObjectMeta.Namespace).Create (serverlessTarget obj) {} s).2) :=
  rfl

theorem traced_CreateServerlessCR_log {σ : Type} (r : KymaReconciler σ) (obj : Kyma) (s : σ)
    (log : List Call) :
    (r.traced.CreateServerlessCR obj (s, log)).2.2 =
      log ++ [Call.DynamicCreate serverlessConfigurationResource obj.ObjectMeta.Namespace
        (serverlessTarget obj) {}] := by
  rw [CreateServerlessCR_eq]; rfl

theorem serverless_name_length (name : String) : (name ++ "-serverless").length ≠ 0 := by
  rw [String.length_append]
  have h : "-serverless".length = 11 := by decide
  omega

theorem serverlessTarget_of_empty (obj : Kyma) (hns : obj.ObjectMeta.Namespace.length = 0) :
    serverlessTarget obj =
      { Object :=
          [serverlessSpec obj,
           ("apiVersion", Value.str "kyma.kyma-project.io/v1alpha1"),
           ("kind", Value.str "ServerlessConfiguration"),
           ("metadata", Value.map [("name", Value.str (obj.ObjectMeta.Name ++ "-serverless"))])] } := by
  unfold serverlessTarget
  simp only [Unstructured.SetName, Unstructured.SetNamespace, Kyma.GetName, Kyma.GetNamespace,
    if_neg (serverless_name_length _), if_pos hns]
  rfl

theorem serverlessTarget_of_nonempty (obj : Kyma) (hns : obj.ObjectMeta.Namespace.length ≠ 0) :
    serverlessTarget obj =
      { Object :=
          [serverlessSpec obj,
           ("apiVersion", Value.str "kyma.kyma-project.io/v1alpha1"),
           ("kind", Value.str "ServerlessConfiguration"),
           ("metadata", Value.map
              [("name", Value.str (obj.ObjectMeta.Name ++ "-serverless")),
               ("namespace", Value.str obj.ObjectMeta.Namespace)])] } := by
  unfold serverlessTarget
  simp only [Unstructured.SetName, Unstructured.SetNamespace, Kyma.GetName, Kyma.GetNamespace,
    if_neg (serverless_name_length _), if_neg hns]
  rfl

theorem serverlessTarget_GetName (obj : Kyma) :
    (serverlessTarget obj).GetName = obj.ObjectMeta.Name ++ "-serverless" := by
  by_cases hns : obj.ObjectMeta.Namespace.length = 0
  · rw [serverlessTarget_of_empty obj hns]; rfl
  · rw [serverlessTarget_of_nonempty obj hns]; rfl

theorem serverlessTarget_GetNamespace (obj : Kyma) :
    (serverlessTarget obj).GetNamespace = obj.ObjectMeta.Namespace := by
  by_cases hns : obj.ObjectMeta.Namespace.length = 0
  · rw [serverlessTarget_of_empty obj hns]
    have h : obj.ObjectMeta.Namespace = "" := by
      apply String.ext
      exact List.length_eq_zero.mp hns
    rw [h]; rfl
  · rw [serverlessTarget_of_nonempty obj hns]; rfl

theorem serverlessTarget_spec (obj : Kyma) :
    Fields.get (serverlessTarget obj).Object "spec" = some (serverlessSpec obj).2 := by
  by_cases hns : obj.ObjectMeta.Namespace.length = 0
  · rw [serverlessTarget_of_empty obj hns]; rfl
  · rw [serverlessTarget_of_nonempty obj hns]; rfl

theorem serverlessTarget_commonPrefix (obj : Kyma) :
    NestedFieldNoCopy (Value.map (serverlessTarget obj).Object) ["spec", "commonPrefix"] =
      some (Value.str obj.Spec.Foo) := by
  by_cases hns : obj.ObjectMeta.Namespace.length = 0
  · rw [serverlessTarget_of_empty obj hns]; rfl
  · rw [serverlessTarget_of_nonempty obj hns]; rfl

theorem serverlessTarget_githubRepository (obj : Kyma) :
    NestedFieldNoCopy (Value.map (serverlessTarget obj).Object) ["spec", "githubRepository"] =
      some (Value.map [("authKey", Value.str "a1b2c3d4e5"),
        ("url", Value.str "https://kyma-project.io/serverless/dummy")]) := by
  by_cases hns : obj.ObjectMeta.Namespace.length = 0
  · rw [serverlessTarget_of_empty obj hns]; rfl
  · rw [serverlessTarget_of_nonempty obj hns]; rfl

/-! ## The three branches of `Reconcile` -/

theorem IsNotFound_none : IsNotFound none = false := by decide

theorem Reconcile_of_notFound {σ : Type} (r : KymaReconciler σ) (req : Request) (s : σ)
    (h : IsNotFound (r.Client.Get req.NamespacedName {} s).1.2 = true) :
    r.Reconcile req s =
      (({}, if IsNotFound (r.Client.Delete
                { ObjectMeta := { Name := req.Name, Namespace := req.Namespace } }
                (r.Client.Get req.NamespacedName {} s).2).1 = true then none
            else (r.Client.Delete
                { ObjectMeta := { Name := req.Name, Namespace := req.Namespace } }
                (r.Client.Get req.NamespacedName {} s).2).1),
       (r.Client.Delete
          { ObjectMeta := { Name := req.Name, Namespace := req.Namespace } }
          (r.Client.Get req.NamespacedName {} s).2).2) := by
  unfold KymaReconciler.Reconcile
  simp only [h, if_true]
  split
  · rfl
  · split
    · rfl
    · rename_i h2
      simp only [ne_eq, not_not] at h2
      simp only [h2]

theorem Reconcile_of_error {σ : Type} (r : KymaReconciler σ) (req : Request) (s : σ)
    (e : StatusError) (h : (r.Client.Get req.NamespacedName {} s).1.2 = some e)
    (hnf : IsNotFound (some e) = false) :
    r.Reconcile req s = (({}, some e), (r.Client.Get req.NamespacedName {} s).2) := by
  unfold KymaReconciler.Reconcile
  simp [h, hnf]

theorem Reconcile_of_found {σ : Type} (r : KymaReconciler σ) (req : Request) (s : σ)
    (h : (r.Client.Get req.NamespacedName {} s).1.2 = none) :
    r.Reconcile req s =
      (({}, (r.CreateServerlessCR (r.Client.Get req.NamespacedName {} s).1.1
                (r.Client.Get req.NamespacedName {} s).2).1.2),
       (r.CreateServerlessCR (r.Client.Get req.NamespacedName {} s).1.1
                (r.Client.Get req.NamespacedName {} s).2).2) := by
  unfold KymaReconciler.Reconcile
  simp only [h, IsNotFound_none, ne_eq, not_true_eq_false, if_false, Bool.false_eq_true]
  split
  · rfl
  · rename_i h2
    simp only [not_not] at h2
    simp only [h2]

/-! ## Projection of the primary onto its dependents -/

/-- C1: for every primary `P`, every store and every store state, the one call
`CreateServerlessCR` makes is a Dynamic Store create whose object has
`spec.commonPrefix` equal to `P.Spec.Foo`, name equal to the name of `P`
followed by `-serverless` and namespace equal to the namespace of `P`; the
returned `ObjectKey` carries that name and namespace. -/
theorem CreateServerlessCR_projection {σ : Type} (r : KymaReconciler σ) (P : Kyma) (s : σ)
    (log : List Call) :
    ∃ target : Unstructured,
      (r.traced.CreateServerlessCR P (s, log)).2.2 =
        log ++ [Call.DynamicCreate serverlessConfigurationResource P.ObjectMeta.Namespace
          target {}] ∧
      NestedFieldNoCopy (Value.map target.Object) ["spec", "commonPrefix"] =
        some (Value.str P.Spec.Foo) ∧
      target.GetName = P.ObjectMeta.Name ++ "-serverless" ∧
      target.GetNamespace = P.ObjectMeta.Namespace ∧
      (r.CreateServerlessCR P s).1.1 =
        { Name := P.ObjectMeta.Name ++ "-serverless", Namespace := P.ObjectMeta.Namespace } := by
  refine ⟨serverlessTarget P, ?_, serverlessTarget_commonPrefix P, serverlessTarget_GetName P,
    serverlessTarget_GetNamespace P, ?_⟩
  · rw [CreateServerlessCR_eq]; rfl
  · rw [CreateServerlessCR_eq, serverlessTarget_GetName, serverlessTarget_GetNamespace]

/-- C8: for any two primaries `P1` and `P2`, on any stores, the objects
`CreateServerlessCR` submits carry the same `spec.githubRepository` block:
`authKey` is `a1b2c3d4e5` and `url` is
`https://kyma-project.io/serverless/dummy`, whatever the primary is. -/
theorem CreateServerlessCR_githubRepository_constant {σ₁ σ₂ : Type} (r₁ : KymaReconciler σ₁)
    (r₂ : KymaReconciler σ₂) (P1 P2 : Kyma) (s₁ : σ₁) (s₂ : σ₂) (log₁ log₂ : List Call) :
    ∃ target₁ target₂ : Unstructured,
      (r₁.traced.CreateServerlessCR P1 (s₁, log₁)).2.2 =
        log₁ ++ [Call.DynamicCreate serverlessConfigurationResource P1.ObjectMeta.Namespace
          target₁ {}] ∧
      (r₂.traced.CreateServerlessCR P2 (s₂, log₂)).2.2 =
        log₂ ++ [Call.DynamicCreate serverlessConfigurationResource P2.ObjectMeta.Namespace
          target₂ {}] ∧
      NestedFieldNoCopy (Value.map target₁.Object) ["spec", "githubRepository"] =
        NestedFieldNoCopy (Value.map target₂.Object) ["spec", "githubRepository"] ∧
      NestedFieldNoCopy (Value.map target₁.Object) ["spec", "githubRepository"] =
        some (Value.map [("authKey", Value.str "a1b2c3d4e5"),
          ("url", Value.str "https://kyma-project.io/serverless/dummy")]) ∧
      getNestedString target₁.Object ["spec", "githubRepository", "authKey"] = "a1b2c3d4e5" ∧
      getNestedString target₂.Object ["spec", "githubRepository", "authKey"] = "a1b2c3d4e5" ∧
      getNestedString target₁.Object ["spec", "githubRepository", "url"] =
        "https://kyma-project.io/serverless/dummy" ∧
      getNestedString target₂.Object ["spec", "githubRepository", "url"] =
        "https://kyma-project.io/serverless/dummy" := by
  have key : ∀ obj : Kyma,
      getNestedString (serverlessTarget obj).Object ["spec", "githubRepository", "authKey"] =
        "a1b2c3d4e5" ∧
      getNestedString (serverlessTarget obj).Object ["spec", "githubRepository", "url"] =
        "https://kyma-project.io/serverless/dummy" := by
    intro obj
    have h := serverlessTarget_spec obj
    constructor <;>
    · unfold getNestedString NestedFieldNoCopy
      rw [h]
      rfl
  refine ⟨serverlessTarget P1, serverlessTarget P2, ?_, ?_, ?_,
    serverlessTarget_githubRepository P1, (key P1).1, (key P2).1, (key P1).2, (key P2).2⟩
  · rw [CreateServerlessCR_eq]; rfl
  · rw [CreateServerlessCR_eq]; rfl
  · rw [serverlessTarget_githubRepository, serverlessTarget_githubRepository]

/-- C9: for every primary `P` and every store, the one call `CreateIstioCR`
makes is a Typed Store create of an IstioConfiguration with the name and
namespace of `P` and `Spec.Foo` equal to `P.Spec.Foo` followed by
`_from_mothership`; the returned key is the name and namespace of `P` whatever
the create answers, and the returned error is the answer of the create. -/
theorem CreateIstioCR_projection {σ : Type} (r : KymaReconciler σ) (P : Kyma) (s : σ)
    (log : List Call) :
    ∃ istioObject : IstioConfiguration,
      (r.traced.CreateIstioCR P (s, log)).2.2 = log ++ [Call.Create istioObject] ∧
      istioObject.ObjectMeta.Name = P.ObjectMeta.Name ∧
      istioObject.ObjectMeta.Namespace = P.ObjectMeta.Namespace ∧
      istioObject.Spec.Foo = P.Spec.Foo ++ "_from_mothership" ∧
      (r.CreateIstioCR P s).1.1 =
        { Name := P.ObjectMeta.Name, Namespace := P.ObjectMeta.Namespace } ∧
      (r.CreateIstioCR P s).1.2 = (r.Client.Create istioObject s).1 ∧
      (r.CreateIstioCR P s).2 = (r.Client.Create istioObject s).2 :=
  ⟨{ ObjectMeta := { Name := P.ObjectMeta.Name, Namespace := P.ObjectMeta.Namespace },
     Spec := { Foo := P.Spec.Foo ++ "_from_mothership" } },
   rfl, rfl, rfl, rfl, rfl, rfl, rfl⟩

/-! ## Outcomes of `Reconcile` -/

/-- C10: for every identity, every store and every store state, the `Result`
returned by `Reconcile` is the empty one: no requeue flag and a zero
requeue-after duration, with or without an error. -/
theorem Reconcile_result_empty {σ : Type} (r : KymaReconciler σ) (req : Request) (s : σ) :
    (r.Reconcile req s).1.1 = {} ∧
    (r.Reconcile req s).1.1.Requeue = false ∧
    (r.Reconcile req s).1.1.RequeueAfter = 0 := by
  have h : (r.Reconcile req s).1.1 = {} := by
    unfold KymaReconciler.Reconcile
    simp only []
    split
    · split
      · rfl
      · split <;> rfl
    · split
      · rfl
      · split <;> rfl
  rw [h]
  exact ⟨rfl, rfl, rfl⟩

/-- C5: for every identity and every store, when the read of the primary fails
with an error that is not "not found" (`apierrors.IsNotFound` answers false:
the reason is not `NotFound`, and it is a listed reason or the code is not
404), `Reconcile` returns exactly that error,
the read is the only store call it makes (no create, no delete), and the store
state is the one the read left: unchanged when the read changes nothing. -/
theorem Reconcile_read_error {σ : Type} (r : KymaReconciler σ) (req : Request) (s : σ)
    (log : List Call) (e : StatusError)
    (h : (r.Client.Get req.NamespacedName {} s).1.2 = some e)
    (hnf : IsNotFound (some e) = false) :
    (r.Reconcile req s).1 = ({}, some e) ∧
    (r.traced.Reconcile req (s, log)).2.2 = log ++ [Call.Get req.NamespacedName] ∧
    (r.Reconcile req s).2 = (r.Client.Get req.NamespacedName {} s).2 ∧
    ((r.Client.Get req.NamespacedName {} s).2 = s → (r.Reconcile req s).2 = s) := by
  have h1 := Reconcile_of_error r req s e h hnf
  have h2 := Reconcile_of_error r.traced req (s, log) e h hnf
  refine ⟨by rw [h1], by rw [h2]; rfl, by rw [h1], fun hs => by rw [h1]; exact hs⟩

/-- C6: for every identity whose read of the primary reports "not found"
(`apierrors.IsNotFound` answers true, by reason or by an unlisted reason with
code 404), `Reconcile` makes the read and then one delete, of the IstioConfiguration with
the name and namespace of the identity; it returns a non-nil error if and only
if that delete fails with an error other than "not found", the error returned
is then the error of the delete, and a delete that succeeds or reports "not
found" gives the empty `Result` with a nil error. -/
theorem Reconcile_deletion_path {σ : Type} (r : KymaReconciler σ) (req : Request) (s : σ)
    (log : List Call)
    (h : IsNotFound (r.Client.Get req.NamespacedName {} s).1.2 = true) :
    let istioObject : IstioConfiguration :=
      { ObjectMeta := { Name := req.Name, Namespace := req.Namespace } }
    let deleted := r.Client.Delete istioObject (r.Client.Get req.NamespacedName {} s).2
    (r.traced.Reconcile req (s, log)).2.2 =
      log ++ [Call.Get req.NamespacedName, Call.Delete istioObject] ∧
    ((r.Reconcile req s).1.2 ≠ none ↔ (deleted.1 ≠ none ∧ IsNotFound deleted.1 = false)) ∧
    ((r.Reconcile req s).1.2 ≠ none → (r.Reconcile req s).1.2 = deleted.1) ∧
    ((deleted.1 = none ∨ IsNotFound deleted.1 = true) → (r.Reconcile req s).1 = ({}, none)) ∧
    (r.Reconcile req s).2 = deleted.2 := by
  intro istioObject deleted
  have h1 := Reconcile_of_notFound r req s h
  have h2 := Reconcile_of_notFound r.traced req (s, log) h
  refine ⟨?_, ?_, ?_, ?_, ?_⟩
  · rw [h2]
    show (log ++ [Call.Get req.NamespacedName]) ++ [Call.Delete istioObject] = _
    simp
  · rw [h1]
    show (if IsNotFound deleted.1 = true then none else deleted.1) ≠ none ↔ _
    by_cases hd : IsNotFound deleted.1 = true
    · simp [hd]
    · simp [hd]
  · rw [h1]
    show (if IsNotFound deleted.1 = true then none else deleted.1) ≠ none →
      (if IsNotFound deleted.1 = true then none else deleted.1) = deleted.1
    by_cases hd : IsNotFound deleted.1 = true
    · simp [hd]
    · simp [hd]
  · intro hd
    rw [h1]
    show (({} : Result), (if IsNotFound deleted.1 = true then none else deleted.1)) = _
    rcases hd with hd | hd
    · simp [hd]
    · simp [hd]
  · rw [h1]

/-- C7: for every identity whose read of the primary succeeds, `Reconcile`
makes the read and then one Dynamic Store create, of the ServerlessConfiguration
object; it returns the empty `Result` with a nil error if and only if that
create succeeds, and whenever the create fails, whatever the error (already
exists included), it returns exactly the error of the create. -/
theorem Reconcile_converge_path {σ : Type} (r : KymaReconciler σ) (req : Request) (s : σ)
    (log : List Call)
    (h : (r.Client.Get req.NamespacedName {} s).1.2 = none) :
    ∃ target : Unstructured,
      let obj := (r.Client.Get req.NamespacedName {} s).1.1
      let created :=
        ((r.DynamicClient.Resource serverlessConfigurationResource).Namespace
          obj.ObjectMeta.Namespace).Create target {} (r.Client.Get req.NamespacedName {} s).2
      (r.traced.Reconcile req (s, log)).2.2 =
        log ++ [Call.Get req.NamespacedName,
          Call.DynamicCreate serverlessConfigurationResource obj.ObjectMeta.Namespace target {}] ∧
      target.GetName = obj.ObjectMeta.Name ++ "-serverless" ∧
      ((r.Reconcile req s).1 = ({}, none) ↔ created.1.2 = none) ∧
      (∀ e : StatusError, created.1.2 = some e → (r.Reconcile req s).1 = ({}, some e)) ∧
      (r.Reconcile req s).2 = created.2 := by
  refine ⟨serverlessTarget (r.Client.Get req.NamespacedName {} s).1.1, ?_⟩
  intro obj created
  have h1 := Reconcile_of_found r req s h
  have h2 := Reconcile_of_found r.traced req (s, log) h
  rw [CreateServerlessCR_eq] at h1
  refine ⟨?_, serverlessTarget_GetName _, ?_, ?_, ?_⟩
  · rw [h2]
    show (r.traced.CreateServerlessCR obj
      ((r.Client.Get req.NamespacedName {} s).2, log ++ [Call.Get req.NamespacedName])).2.2 = _
    rw [traced_CreateServerlessCR_log]
    simp
  · rw [h1]
    show (({} : Result), created.1.2) = ({}, none) ↔ _
    simp
  · intro e he
    rw [h1]
    show (({} : Result), created.1.2) = _
    rw [he]
  · rw [h1]

/-! ## `Reconcile` on the in-memory store -/

theorem find?_of_any {α : Type} (p : α → Bool) (l : List α) (h : l.any p = true) :
    ∃ a, l.find? p = some a ∧ p a = true := by
  induction l with
  | nil => simp at h
  | cons x xs ih =>
    by_cases hx : p x = true
    · exact ⟨x, by simp [List.find?, hx], hx⟩
    · have hxs : xs.any p = true := by
        simp only [List.any_cons, Bool.or_eq_true] at h
        rcases h with h | h
        · exact absurd h hx
        · exact h
      obtain ⟨a, ha, hpa⟩ := ih hxs
      refine ⟨a, ?_, hpa⟩
      simp only [Bool.not_eq_true] at hx
      simp [List.find?, hx, ha]

theorem find?_of_any_false {α : Type} (p : α → Bool) (l : List α) (h : l.any p = false) :
    l.find? p = none := by
  induction l with
  | nil => rfl
  | cons x xs ih =>
    simp only [List.any_cons, Bool.or_eq_false_iff] at h
    simp [List.find?, h.1, ih h.2]

theorem Cluster_Get_absent (key : NamespacedName) (obj : Kyma) (c : Cluster)
    (h : c.hasKyma key = false) :
    Cluster.Get key obj c = ((obj, some (NewNotFound key.Name)), c) := by
  unfold Cluster.Get
  rw [find?_of_any_false _ _ h]

theorem Cluster_Get_present (key : NamespacedName) (obj : Kyma) (c : Cluster)
    (h : c.hasKyma key = true) :
    ∃ k : Kyma, Cluster.Get key obj c = ((k, none), c) ∧
      k.ObjectMeta.Namespace = key.Namespace ∧ k.ObjectMeta.Name = key.Name := by
  obtain ⟨k, hk, hp⟩ := find?_of_any _ _ h
  refine ⟨k, ?_, ?_⟩
  · unfold Cluster.Get
    rw [hk]
  · simpa [ObjectMeta.hasKey] using hp

theorem IsNotFound_NewNotFound (name : String) : IsNotFound (some (NewNotFound name)) = true :=
  rfl

theorem IsNotFound_NewAlreadyExists (name : String) :
    IsNotFound (some (NewAlreadyExists name)) = false :=
  rfl

/-- On the deletion path the in-memory store keeps every schema-less object:
`Reconcile` issues no Dynamic Store call there. -/
theorem Reconcile_deletion_keeps_dynamicObjects (req : Request) (c : Cluster)
    (hk : c.hasKyma req.NamespacedName = false) :
    (clusterReconciler.Reconcile req c).2.dynamicObjects = c.dynamicObjects ∧
    (clusterReconciler.Reconcile req c).2.hasServerless req.NamespacedName =
      c.hasServerless req.NamespacedName := by
  have hget : clusterReconciler.Client.Get req.NamespacedName {} c =
      (({}, some (NewNotFound req.NamespacedName.Name)), c) := Cluster_Get_absent _ _ _ hk
  have h1 := Reconcile_of_notFound clusterReconciler req c (by rw [hget]; rfl)
  have h2 : (clusterReconciler.Reconcile req c).2.dynamicObjects = c.dynamicObjects := by
    rw [h1, hget]
    show (Cluster.Delete _ c).2.dynamicObjects = _
    unfold Cluster.Delete
    simp only []
    split <;> rfl
  exact ⟨h2, by unfold Cluster.hasServerless; rw [h2]⟩

/-- C4: on the in-memory store, for every identity such that neither the
primary nor the IstioConfiguration nor the ServerlessConfiguration derived from
it exists, `Reconcile` returns the empty `Result` with a nil error and the
contents of both stores are what they were. -/
theorem Reconcile_absent_noop (req : Request) (c : Cluster)
    (hk : c.hasKyma req.NamespacedName = false)
    (hi : c.hasIstio req.NamespacedName = false)
    (_hs : c.hasServerless req.NamespacedName = false) :
    clusterReconciler.Reconcile req c = (({}, none), c) := by
  have hget : clusterReconciler.Client.Get req.NamespacedName {} c =
      (({}, some (NewNotFound req.NamespacedName.Name)), c) := Cluster_Get_absent _ _ _ hk
  have h1 := Reconcile_of_notFound clusterReconciler req c (by rw [hget]; rfl)
  have hdel : clusterReconciler.Client.Delete
      { ObjectMeta := { Name := req.Name, Namespace := req.Namespace } } c =
      (some (NewNotFound req.Name), c) := by
    show Cluster.Delete _ c = _
    unfold Cluster.Delete
    have hi2 : (c.istioConfigurations.any fun i => i.ObjectMeta.hasKey
        { Namespace := req.Namespace, Name := req.Name }) = false := hi
    simp only [hi2]
    rfl
  rw [h1, hget, hdel]
  simp [IsNotFound_NewNotFound]

theorem Reconcile_present_cluster (req : Request) (c : Cluster)
    (hk : c.hasKyma req.NamespacedName = true) :
    ∃ k : Kyma,
      clusterReconciler.Reconcile req c =
        (if c.hasServerless req.NamespacedName = true then
          (({}, some (NewAlreadyExists (req.Name ++ "-serverless"))), c)
        else
          (({}, none),
           { c with
             dynamicObjects := c.dynamicObjects ++
               [(serverlessConfigurationResource, req.Namespace, serverlessTarget k)] })) ∧
      (serverlessTarget k).GetName = req.Name ++ "-serverless" := by
  obtain ⟨k, hget, hns, hname⟩ := Cluster_Get_present req.NamespacedName {} c hk
  have hget2 : clusterReconciler.Client.Get req.NamespacedName {} c = ((k, none), c) := hget
  have h1 := Reconcile_of_found clusterReconciler req c (by rw [hget2])
  rw [CreateServerlessCR_eq, hget2] at h1
  have htn : (serverlessTarget k).GetName = req.Name ++ "-serverless" := by
    rw [serverlessTarget_GetName, hname]; rfl
  refine ⟨k, ?_, htn⟩
  rw [h1]
  show ((({} : Result), (Cluster.DynamicCreate serverlessConfigurationResource
      k.ObjectMeta.Namespace (serverlessTarget k) {} c).1.2),
    (Cluster.DynamicCreate serverlessConfigurationResource
      k.ObjectMeta.Namespace (serverlessTarget k) {} c).2) = _
  unfold Cluster.DynamicCreate Cluster.hasServerless
  rw [htn, hns]
  simp only [Request.Name, Request.Namespace]
  by_cases hs : (c.dynamicObjects.any (dynamicHasKey serverlessConfigurationResource
      req.NamespacedName.Namespace (req.NamespacedName.Name ++ "-serverless"))) = true
  · rw [if_pos hs, if_pos hs]
  · rw [if_neg hs, if_neg hs]

/-- C3, as the code has it: on the in-memory store, for every identity whose
primary exists and every store state, a second `Reconcile` right after the
first leaves both stores exactly as the first left them, with the
ServerlessConfiguration present, and returns the already-exists error of the
store for that object (the empty `Result` with it). -/
theorem Reconcile_twice_same_state (req : Request) (c : Cluster)
    (hk : c.hasKyma req.NamespacedName = true) :
    (clusterReconciler.Reconcile req (clusterReconciler.Reconcile req c).2).2 =
      (clusterReconciler.Reconcile req c).2 ∧
    (clusterReconciler.Reconcile req c).2.hasServerless req.NamespacedName = true ∧
    (clusterReconciler.Reconcile req (clusterReconciler.Reconcile req c).2).1 =
      ({}, some (NewAlreadyExists (req.Name ++ "-serverless"))) := by
  obtain ⟨k, h1, htn⟩ := Reconcile_present_cluster req c hk
  have key : ∀ c1 : Cluster, c1.hasKyma req.NamespacedName = true →
      c1.hasServerless req.NamespacedName = true →
      clusterReconciler.Reconcile req c1 =
        (({}, some (NewAlreadyExists (req.Name ++ "-serverless"))), c1) := by
    intro c1 hk1 hs1
    obtain ⟨k1, h2, _⟩ := Reconcile_present_cluster req c1 hk1
    rw [h2, if_pos hs1]
  by_cases hs : c.hasServerless req.NamespacedName = true
  · rw [if_pos hs] at h1
    rw [h1]
    exact ⟨by rw [key c hk hs], hs, by rw [key c hk hs]⟩
  · rw [if_neg hs] at h1
    rw [h1]
    have hs1 : Cluster.hasServerless
        { c with
          dynamicObjects := c.dynamicObjects ++
            [(serverlessConfigurationResource, req.Namespace, serverlessTarget k)] }
        req.NamespacedName = true := by
      unfold Cluster.hasServerless
      simp only [List.any_append, List.any_cons, List.any_nil, Bool.or_false, Bool.or_eq_true]
      right
      simp only [dynamicHasKey, htn, Request.Name, Request.Namespace, decide_True, Bool.and_self]
    have hk1 : Cluster.hasKyma
        { c with
          dynamicObjects := c.dynamicObjects ++
            [(serverlessConfigurationResource, req.Namespace, serverlessTarget k)] }
        req.NamespacedName = true := hk
    exact ⟨by rw [key _ hk1 hs1], hs1, by rw [key _ hk1 hs1]⟩

/-! ## Concrete runs -/

/-- C2 at a concrete store: the primary `prod/kyma` is absent, its
IstioConfiguration and its ServerlessConfiguration both exist, every store
operation succeeds; after `Reconcile` the IstioConfiguration is gone and the
ServerlessConfiguration is still there. -/
theorem Reconcile_deletion_leaves_serverless :
    clusterWithDependents.hasKyma sampleRequest.NamespacedName = false ∧
    clusterWithDependents.hasIstio sampleRequest.NamespacedName = true ∧
    clusterWithDependents.hasServerless sampleRequest.NamespacedName = true ∧
    (clusterReconciler.Reconcile sampleRequest clusterWithDependents).1 = ({}, none) ∧
    (clusterReconciler.Reconcile sampleRequest clusterWithDependents).2.hasIstio
      sampleRequest.NamespacedName = false ∧
    (clusterReconciler.Reconcile sampleRequest clusterWithDependents).2.hasServerless
      sampleRequest.NamespacedName = true := by
  decide

/-- C3 fails as stated: with the primary `prod/kyma` present and no dependent
yet, the first `Reconcile` succeeds and the second one, with nothing changed in
between, returns a non-nil error. -/
theorem Reconcile_twice_second_errors :
    clusterWithPrimary.hasKyma sampleRequest.NamespacedName = true ∧
    (clusterReconciler.Reconcile sampleRequest clusterWithPrimary).1.2 = none ∧
    ¬ ((clusterReconciler.Reconcile sampleRequest
          (clusterReconciler.Reconcile sampleRequest clusterWithPrimary).2).2 =
        (clusterReconciler.Reconcile sampleRequest clusterWithPrimary).2 ∧
       (clusterReconciler.Reconcile sampleRequest
          (clusterReconciler.Reconcile sampleRequest clusterWithPrimary).2).1.2 = none) :=
  ⟨by decide, by decide, fun h => absurd h.2 (by decide)⟩

/-- The second run on the store that holds only the primary `prod/kyma`. -/
theorem Reconcile_twice_same_state_witness :
    clusterWithPrimary.hasKyma sampleRequest.NamespacedName = true ∧
    ((clusterReconciler.Reconcile sampleRequest
        (clusterReconciler.Reconcile sampleRequest clusterWithPrimary).2).2 =
      (clusterReconciler.Reconcile sampleRequest clusterWithPrimary).2 ∧
    (clusterReconciler.Reconcile sampleRequest clusterWithPrimary).2.hasServerless
      sampleRequest.NamespacedName = true ∧
    (clusterReconciler.Reconcile sampleRequest
        (clusterReconciler.Reconcile sampleRequest clusterWithPrimary).2).1 =
      ({}, some (NewAlreadyExists (sampleRequest.Name ++ "-serverless")))) :=
  ⟨by decide, Reconcile_twice_same_state sampleRequest clusterWithPrimary (by decide)⟩

/-- The identity `prod/kyma` on the empty store. -/
theorem Reconcile_absent_noop_witness :
    Cluster.hasKyma {} sampleRequest.NamespacedName = false ∧
    Cluster.hasIstio {} sampleRequest.NamespacedName = false ∧
    Cluster.hasServerless {} sampleRequest.NamespacedName = false ∧
    clusterReconciler.Reconcile sampleRequest {} = (({}, none), {}) :=
  ⟨by decide, by decide, by decide,
   Reconcile_absent_noop sampleRequest {} (by decide) (by decide) (by decide)⟩

/-- A read that times out on the store that holds the primary `prod/kyma`. -/
theorem Reconcile_read_error_witness :
    ((faultyReconciler { Get := some timeoutError }).Client.Get sampleRequest.NamespacedName {}
        clusterWithPrimary).1.2 = some timeoutError ∧
    IsNotFound (some timeoutError) = false ∧
    (((faultyReconciler { Get := some timeoutError }).Reconcile sampleRequest
        clusterWithPrimary).1 = ({}, some timeoutError) ∧
     ((faultyReconciler { Get := some timeoutError }).traced.Reconcile sampleRequest
        (clusterWithPrimary, [])).2.2 = [] ++ [Call.Get sampleRequest.NamespacedName] ∧
     ((faultyReconciler { Get := some timeoutError }).Reconcile sampleRequest
        clusterWithPrimary).2 =
      ((faultyReconciler { Get := some timeoutError }).Client.Get sampleRequest.NamespacedName {}
        clusterWithPrimary).2 ∧
     (((faultyReconciler { Get := some timeoutError }).Client.Get sampleRequest.NamespacedName {}
        clusterWithPrimary).2 = clusterWithPrimary →
      ((faultyReconciler { Get := some timeoutError }).Reconcile sampleRequest
        clusterWithPrimary).2 = clusterWithPrimary)) :=
  ⟨rfl, by decide,
   Reconcile_read_error (faultyReconciler { Get := some timeoutError }) sampleRequest
     clusterWithPrimary [] timeoutError rfl (by decide)⟩

/-- A delete that times out on the store that holds both dependents and no
primary. -/
theorem Reconcile_deletion_path_witness :
    IsNotFound ((faultyReconciler { Delete := some timeoutError }).Client.Get
      sampleRequest.NamespacedName {} clusterWithDependents).1.2 = true ∧
    ((faultyReconciler { Delete := some timeoutError }).Reconcile sampleRequest
      clusterWithDependents).1.2 = some timeoutError :=
  ⟨by decide,
   ((Reconcile_deletion_path (faultyReconciler { Delete := some timeoutError }) sampleRequest
      clusterWithDependents [] (by decide)).2.2.1
      ((Reconcile_deletion_path (faultyReconciler { Delete := some timeoutError }) sampleRequest
        clusterWithDependents [] (by decide)).2.1.mpr ⟨by decide, by decide⟩))⟩

/-- A create that times out on the store that holds the primary `prod/kyma`. -/
theorem Reconcile_converge_path_witness :
    ((faultyReconciler { DynamicCreate := some timeoutError }).Client.Get
      sampleRequest.NamespacedName {} clusterWithPrimary).1.2 = none ∧
    ((faultyReconciler { DynamicCreate := some timeoutError }).Reconcile sampleRequest
      clusterWithPrimary).1 = ({}, some timeoutError) :=
  ⟨by decide, by
    obtain ⟨target, _, _, _, h, _⟩ :=
      Reconcile_converge_path (faultyReconciler { DynamicCreate := some timeoutError })
        sampleRequest clusterWithPrimary [] (by decide)
    exact h timeoutError rfl⟩

/-! ## Errors that are "not found" by their HTTP code -/

theorem IsNotFound_bare404Error : IsNotFound (some bare404Error) = true := by decide

theorem IsNotFound_plainError : IsNotFound (some plainError) = false := by decide

theorem IsNotFound_timeoutError : IsNotFound (some timeoutError) = false := by decide

/-- A listed reason other than `NotFound` is not "not found", even with code
404. -/
theorem IsNotFound_listed_reason_404 :
    IsNotFound (some { Reason := "Forbidden", Code := StatusNotFound, Message := "" }) = false := by
  decide

/-- A read error with no reason and code 404 takes the deletion path: the
IstioConfiguration is deleted and the outcome is the empty `Result` with a nil
error. -/
theorem Reconcile_read_bare404 :
    ((faultyReconciler { Get := some bare404Error }).Reconcile sampleRequest
      clusterWithDependents).1 = ({}, none) ∧
    ((faultyReconciler { Get := some bare404Error }).Reconcile sampleRequest
      clusterWithDependents).2.hasIstio sampleRequest.NamespacedName = false ∧
    ((faultyReconciler { Get := some bare404Error }).traced.Reconcile sampleRequest
      (clusterWithDependents, [])).2.2 =
      [Call.Get sampleRequest.NamespacedName,
       Call.Delete { ObjectMeta := { Name := "kyma", Namespace := "prod" } }] :=
  ⟨by decide, by decide, rfl⟩

/-- A delete error with no reason and code 404 counts as "already absent": the
outcome is the empty `Result` with a nil error. -/
theorem Reconcile_delete_bare404 :
    ((faultyReconciler { Delete := some bare404Error }).Reconcile sampleRequest {}).1 =
      ({}, none) := by
  decide

/-- A read error that is not an API status is returned as it is. -/
theorem Reconcile_read_plainError :
    ((faultyReconciler { Get := some plainError }).Reconcile sampleRequest
      clusterWithDependents).1 = ({}, some plainError) ∧
    ((faultyReconciler { Get := some plainError }).Reconcile sampleRequest
      clusterWithDependents).2.hasIstio sampleRequest.NamespacedName = true := by
  decide

end KymaOperator
